import Mathlib

/-!
Shallow embedding of the `apps/accounts` user-account subsystem
(`models.py`, `serializers.py`, `views.py`) of the news-app repository.

The persistent store is modelled as a list of `User` records; the password
hasher and the password-strength policy are injected as function parameters,
matching the spec's description of them as external collaborators.  Errors
raised through the serializer machinery are modelled by the inductive `Err`,
one constructor per distinct raise site, together with the field scope and
message each site attaches.
-/

set_option autoImplicit false

namespace NewsApp

/-- The `User` model of `apps/accounts/models.py` (a Django `AbstractUser`
extension).  `password` holds the stored hash, as Django's password column
does.  `posts` and `comments` model the reverse related collections used by
the profile serializer: `none` means the related manager is unavailable
(accessing it raises `AttributeError`), `some l` means it is available and
holds the identifiers `l`. -/
structure User where
  id : Nat
  username : String
  email : String
  password : String
  first_name : String
  last_name : String
  avatar : String
  bio : String
  is_active : Bool
  created_at : Nat
  updated_at : Nat
  posts : Option (List Nat)
  comments : Option (List Nat)
deriving Repr, DecidableEq

/-- The credential store: the `users` table as a list of records. -/
abbrev Store := List User

/-- One constructor per distinct `serializers.ValidationError` raise site in
`apps/accounts/serializers.py`, plus the two uniqueness violations enforced
on the model's unique columns (`username`, `email`) during field
validation. -/
inductive Err where
  | userNotFound
  | accountDisabled
  | mustIncludeEmailAndPassword
  | passwordMismatch
  | weakPassword (reason : String)
  | usernameTaken
  | emailTaken
  | oldPasswordIncorrect
  | newPasswordMismatch
deriving Repr, DecidableEq

/-- The field each error is scoped to in the serializer's error payload
(`none` for non-field errors, raised as a bare message). -/
def errField : Err → Option String
  | .userNotFound => none
  | .accountDisabled => none
  | .mustIncludeEmailAndPassword => none
  | .passwordMismatch => some "password"
  | .weakPassword _ => some "password"
  | .usernameTaken => some "username"
  | .emailTaken => some "email"
  | .oldPasswordIncorrect => some "old_password"
  | .newPasswordMismatch => some "new_password"

/-- The message text attached at each raise site (uniqueness messages are the
framework defaults for unique columns). -/
def errMessage : Err → String
  | .userNotFound => "User not found."
  | .accountDisabled => "User account in disabled."
  | .mustIncludeEmailAndPassword => "Must include email and password."
  | .passwordMismatch => "Password fields did not match."
  | .weakPassword r => r
  | .usernameTaken => "A user with that username already exists."
  | .emailTaken => "user with this email already exists."
  | .oldPasswordIncorrect => "Old password is incorrect."
  | .newPasswordMismatch => "Password fields did not match."

/-- Classification of the error values under the spec's error taxonomy (§7):
errors reporting bad credentials or a disabled account are authentication
errors; field-fixable input errors (mismatch, weak password, uniqueness,
missing fields) are validation errors. -/
def specIsAuthenticationError : Err → Bool
  | .userNotFound => true
  | .accountDisabled => true
  | .oldPasswordIncorrect => true
  | _ => false

/-- Modelled from the spec: `django.contrib.auth.authenticate` and the
authentication-backend configuration (`AUTHENTICATION_BACKENDS` in the
project settings) are not among the sources.  Per the spec's `Authenticate`
contract, the backend "Looks up Account by email" (the model sets
`USERNAME_FIELD = "email"`) and "Verifies password against stored hash",
returning the account on success; the active-flag check is applied
afterwards by the login serializer, whose disabled-account error the spec
records as observed behavior. -/
def djangoAuthenticate (hashFn : String → String) (store : Store)
    (email password : String) : Option User :=
  match store.find? (fun u => u.email == email) with
  | none => none
  | some u => if hashFn password == u.password then some u else none

/-- `UserLoginSerializer.validate` (`serializers.py` lines 98-125): requires
both fields truthy (non-empty), calls `authenticate`, raises
`"User not found."` when it returns no user, then raises
`"User account in disabled."` when the returned user is inactive. -/
def loginValidate (hashFn : String → String) (store : Store)
    (email password : String) : Except Err User :=
  if email ≠ "" ∧ password ≠ "" then
    match djangoAuthenticate hashFn store email password with
    | none => .error .userNotFound
    | some user =>
      if user.is_active = false then .error .accountDisabled
      else .ok user
  else
    .error .mustIncludeEmailAndPassword

/-- Input accepted by `UserRegistrationSerializer` (its `Meta.fields`). -/
structure RegistrationInput where
  username : String
  email : String
  password : String
  password_confirm : String
  first_name : String
  last_name : String
deriving Repr, DecidableEq

/-- `User.objects.create_user(**validated_data)` as called by
`UserRegistrationSerializer.create` after `validated_data.pop("password_confirm")`:
the record is built from the remaining fields only (the `password_confirm`
component is never read), the password is stored as its one-way hash, and
`is_active` takes the model's default `true`.  `freshId`/`now` stand for the
store-assigned key and the `auto_now_add`/`auto_now` timestamps. -/
def create_user (hashFn : String → String) (inp : RegistrationInput)
    (freshId now : Nat) : User :=
  { id := freshId, username := inp.username, email := inp.email,
    password := hashFn inp.password,
    first_name := inp.first_name, last_name := inp.last_name,
    avatar := "", bio := "", is_active := true,
    created_at := now, updated_at := now,
    posts := some [], comments := some [] }

/-- The registration pipeline of `UserRegistrationSerializer` plus
`User.objects.create_user`: field validation runs first, in field order —
the uniqueness constraints on `username` and `email` (unique model columns),
then the injected strength policy on `password` (`validators=[validate_password]`,
where `policy p = some reason` means the policy rejects `p`) — then
`validate` checks `password == password_confirm` (raising a `"password"`-scoped
error otherwise), and `create` pops `password_confirm` and stores the new
user with the hash of `password`; `is_active` defaults to `true`.  Returns
the serializer outcome together with the resulting store, which is unchanged
on failure. -/
def register (hashFn : String → String) (policy : String → Option String)
    (store : Store) (inp : RegistrationInput) (freshId now : Nat) :
    Except Err User × Store :=
  if store.any (fun u => u.username == inp.username) then
    (.error .usernameTaken, store)
  else if store.any (fun u => u.email == inp.email) then
    (.error .emailTaken, store)
  else
    match policy inp.password with
    | some reason => (.error (.weakPassword reason), store)
    | none =>
      if inp.password ≠ inp.password_confirm then
        (.error .passwordMismatch, store)
      else
        let u : User := create_user hashFn inp freshId now
        (.ok u, store ++ [u])

/-- Whether a serializer outcome is a failure carrying a field-scoped
error. -/
def isFieldError : Except Err User → Bool
  | .error e => (errField e).isSome
  | .ok _ => false

/-- The string-valued columns persisted for an account record (`password`
holds the hash).  Used to state that a plaintext is not persisted. -/
def persistedStrings (u : User) : List String :=
  [u.username, u.email, u.password, u.first_name, u.last_name, u.avatar, u.bio]

/-- The partial payload accepted by `UserUpdateSerializer`
(`Meta.fields = ("first_name", "last_name", "avatar", "bio")`); any other
submitted field is dropped by the serializer and cannot appear here.
`none` means the field was not supplied. -/
structure UpdatePayload where
  first_name : Option String
  last_name : Option String
  avatar : Option String
  bio : Option String
deriving Repr, DecidableEq

/-- `UserUpdateSerializer.update` (`serializers.py` lines 222-236):
`setattr` for each supplied field, then `instance.save()`, which touches the
`auto_now` column `updated_at`. -/
def userUpdate (inst : User) (d : UpdatePayload) (now : Nat) : User :=
  let i1 := match d.first_name with
    | some v => { inst with first_name := v }
    | none => inst
  let i2 := match d.last_name with
    | some v => { i1 with last_name := v }
    | none => i1
  let i3 := match d.avatar with
    | some v => { i2 with avatar := v }
    | none => i2
  let i4 := match d.bio with
    | some v => { i3 with bio := v }
    | none => i3
  { i4 with updated_at := now }

/-- The validation pipeline of `ChangePasswordSerializer`:
`validate_old_password` checks the old password against the current hash
(raising the `"old_password"`-scoped `"Old password is incorrect."` error),
the injected strength policy runs on `new_password`, and `validate` requires
`new_password == new_password_confirm`. -/
def changePasswordValidate (hashFn : String → String)
    (policy : String → Option String) (user : User)
    (old_password new_password new_password_confirm : String) :
    Except Err Unit :=
  if hashFn old_password ≠ user.password then
    .error .oldPasswordIncorrect
  else
    match policy new_password with
    | some reason => .error (.weakPassword reason)
    | none =>
      if new_password ≠ new_password_confirm then .error .newPasswordMismatch
      else .ok ()

/-- `ChangePasswordView.update` for the authenticated `user`: runs the
serializer validation and, only on success, `save()` replaces the user's
stored hash with the hash of the new password.  Returns the outcome together
with the resulting store, which is unchanged on failure. -/
def changePassword (hashFn : String → String)
    (policy : String → Option String) (store : Store) (user : User)
    (old_password new_password new_password_confirm : String) :
    Except Err Unit × Store :=
  match changePasswordValidate hashFn policy user
      old_password new_password new_password_confirm with
  | .error e => (.error e, store)
  | .ok _ =>
    (.ok (), store.map fun u =>
      if u.id == user.id then { u with password := hashFn new_password } else u)

/-- `UserProfileSerializer.get_posts_count`: `obj.posts.count()`, with the
`AttributeError` branch (unavailable related collection) returning 0. -/
def get_posts_count (u : User) : Nat :=
  match u.posts with
  | some l => l.length
  | none => 0

/-- `UserProfileSerializer.get_comments_count`: `obj.comments.count()`, with
the `AttributeError` branch returning 0. -/
def get_comments_count (u : User) : Nat :=
  match u.comments with
  | some l => l.length
  | none => 0

/-- Python's whitespace class for `str.strip()` (ASCII members). -/
def pyIsSpace (c : Char) : Bool :=
  c == ' ' || c == '\t' || c == '\n' || c == '\r' ||
  c == Char.ofNat 11 || c == Char.ofNat 12

/-- Strip leading and trailing whitespace characters from a character
list. -/
def stripChars (l : List Char) : List Char :=
  ((l.dropWhile pyIsSpace).reverse.dropWhile pyIsSpace).reverse

/-- Python's `str.strip()` with no argument. -/
def pyStrip (s : String) : String := String.mk (stripChars s.data)

/-- `User.full_name` (`models.py` lines 65-73):
`f"{self.first_name} {self.last_name}".strip()`. -/
def full_name (u : User) : String :=
  pyStrip (u.first_name ++ " " ++ u.last_name)

/-- Responses produced by `logout_view`: the 200 success body, the 400
error body produced in the `except` handler, and the 5xx path of a
propagated (uncaught) infrastructure error — which the view's code can
never take, since its `try` wraps the whole body and catches every
exception. -/
inductive LogoutResult where
  | success (message : String)
  | clientError (error : String)
  | serverError
deriving Repr, DecidableEq

/-- `logout_view` (`views.py` lines 172-193) for an authenticated request.
`refresh_token` is `request.data.get("refresh_token")` (`none` when the key
is absent); `if refresh_token:` is Python truthiness, so an empty string
also skips revocation.  `tokenValid t` models whether `RefreshToken(t)`
constructs without raising (structural validity); `blacklistOk t` models
whether `token.blacklist()` succeeds — when it raises for any reason,
including an infrastructure failure, the bare `except Exception` returns
the 400 "Invalid token" body.  `blacklist` is the token blacklist; the
result pairs the response with the resulting blacklist. -/
def logout_view (tokenValid blacklistOk : String → Bool)
    (refresh_token : Option String) (blacklist : List String) :
    LogoutResult × List String :=
  match refresh_token with
  | none => (.success "Logout successful", blacklist)
  | some t =>
    if t = "" then (.success "Logout successful", blacklist)
    else if tokenValid t = false then (.clientError "Invalid token", blacklist)
    else if blacklistOk t = false then (.clientError "Invalid token", blacklist)
    else (.success "Logout successful", blacklist ++ [t])

/-- A concrete hasher for witnesses: injective-looking tagging, standing in
for the external one-way hash primitive. -/
def exHash (s : String) : String := "pbkdf2$" ++ s

/-- A concrete stored user for witnesses: inactive, password hash of "pw". -/
def bobUser : User :=
  { id := 1, username := "bob", email := "bob@x.com", password := exHash "pw",
    first_name := "Bob", last_name := "Stone", avatar := "", bio := "",
    is_active := false, created_at := 10, updated_at := 10,
    posts := some [], comments := some [] }

/-- A concrete stored user for witnesses: active, password hash of
"Str0ngPW". -/
def aliceUser : User :=
  { id := 2, username := "alice", email := "alice@x.com",
    password := exHash "Str0ngPW", first_name := "Alice", last_name := "Ng",
    avatar := "", bio := "", is_active := true, created_at := 11,
    updated_at := 11, posts := some [], comments := some [] }

/-- A concrete user for witnesses: empty first name, unavailable posts
collection, two comments. -/
def carolUser : User :=
  { id := 3, username := "carol", email := "carol@x.com",
    password := exHash "pw3", first_name := "", last_name := "Lovelace",
    avatar := "", bio := "", is_active := true, created_at := 12,
    updated_at := 12, posts := none, comments := some [7, 8] }

/-- A concrete registration input for witnesses. -/
def exInp : RegistrationInput :=
  { username := "dora", email := "dora@x.com", password := "Str0ngPW",
    password_confirm := "Str0ngPW", first_name := "Dora", last_name := "Li" }

/-- C1: for an account whose active flag is false, login validation fails for
every password, and when the stored credentials are correct (and the fields
are non-empty, so the lookup is reached) the failure is the distinct
disabled-account error, not the `"User not found."` error. -/
theorem C1_login_disabled_account (hashFn : String → String) (store : Store)
    (email pw : String) (u : User)
    (hfind : store.find? (fun x => x.email == email) = some u)
    (hinactive : u.is_active = false) :
    (∃ e, loginValidate hashFn store email pw = .error e) ∧
    (hashFn pw = u.password → email ≠ "" → pw ≠ "" →
      loginValidate hashFn store email pw = .error .accountDisabled ∧
      Err.accountDisabled ≠ Err.userNotFound) := by
  constructor
  · by_cases hc : email ≠ "" ∧ pw ≠ ""
    · by_cases hpw : (hashFn pw == u.password) = true
      · exact ⟨.accountDisabled,
          by simp [loginValidate, djangoAuthenticate, hfind, hc, hpw, hinactive]⟩
      · exact ⟨.userNotFound,
          by simp [loginValidate, djangoAuthenticate, hfind, hc, hpw]⟩
    · exact ⟨.mustIncludeEmailAndPassword, by simp [loginValidate, hc]⟩
  · intro hpw he hp
    refine ⟨?_, by simp⟩
    simp [loginValidate, djangoAuthenticate, hfind, he, hp, hpw, hinactive]

/-- Witness for C1: a stored inactive account with the correct password is
rejected with the disabled-account error. -/
theorem C1_login_disabled_account_witness :
    loginValidate exHash [bobUser] "bob@x.com" "pw" = .error .accountDisabled :=
  ((C1_login_disabled_account exHash [bobUser] "bob@x.com" "pw" bobUser
      (by decide) (by decide)).2 rfl (by decide) (by decide)).1

/-- C2: a login attempt with an email absent from the store and a login
attempt with a stored email but a wrong password produce the same error
value (`"User not found."`), so the two failures are indistinguishable to
the caller. -/
theorem C2_login_indistinguishable (hashFn : String → String) (store : Store)
    (email1 pw1 email2 pw2 : String) (u : User)
    (h1 : store.find? (fun x => x.email == email1) = none)
    (h2 : store.find? (fun x => x.email == email2) = some u)
    (hwrong : hashFn pw2 ≠ u.password)
    (he1 : email1 ≠ "") (hp1 : pw1 ≠ "") (he2 : email2 ≠ "") (hp2 : pw2 ≠ "") :
    loginValidate hashFn store email1 pw1 = .error .userNotFound ∧
    loginValidate hashFn store email2 pw2 = .error .userNotFound := by
  constructor
  · simp [loginValidate, djangoAuthenticate, h1, he1, hp1]
  · simp [loginValidate, djangoAuthenticate, h2, he2, hp2, hwrong]

/-- Witness for C2: unknown email and wrong password against a one-account
store yield the identical error. -/
theorem C2_login_indistinguishable_witness :
    loginValidate exHash [aliceUser] "ghost@x.com" "whatever"
        = .error .userNotFound ∧
    loginValidate exHash [aliceUser] "alice@x.com" "wrong"
        = .error .userNotFound :=
  C2_login_indistinguishable exHash [aliceUser] "ghost@x.com" "whatever"
    "alice@x.com" "wrong" aliceUser (by decide) (by decide) (by decide)
    (by decide) (by decide) (by decide) (by decide)

/-- C3: on a valid registration input (fresh username and email, policy
pass, matching confirmation), registration succeeds and appends exactly one
record: the new account is active, its stored credential is the one-way hash
of the password, and — provided the hash differs from the plaintext and the
plaintext does not coincide with another submitted field — neither the
plaintext password nor `password_confirm` (equal to it) occurs among the
persisted columns; moreover the created record does not depend on the
`password_confirm` component at all (it is popped before `create_user`). -/
theorem C3_register_success (hashFn : String → String)
    (policy : String → Option String) (store : Store)
    (inp : RegistrationInput) (freshId now : Nat)
    (hu : store.any (fun u => u.username == inp.username) = false)
    (he : store.any (fun u => u.email == inp.email) = false)
    (hpol : policy inp.password = none)
    (hconf : inp.password = inp.password_confirm)
    (hhash : hashFn inp.password ≠ inp.password)
    (hfields : inp.password ∉
      [inp.username, inp.email, inp.first_name, inp.last_name, ""]) :
    register hashFn policy store inp freshId now =
      (.ok (create_user hashFn inp freshId now),
        store ++ [create_user hashFn inp freshId now]) ∧
    (store ++ [create_user hashFn inp freshId now]).length = store.length + 1 ∧
    (create_user hashFn inp freshId now).is_active = true ∧
    (create_user hashFn inp freshId now).password = hashFn inp.password ∧
    inp.password ∉ persistedStrings (create_user hashFn inp freshId now) ∧
    inp.password_confirm ∉
      persistedStrings (create_user hashFn inp freshId now) ∧
    (∀ c, create_user hashFn { inp with password_confirm := c } freshId now =
      create_user hashFn inp freshId now) := by
  simp only [List.mem_cons, List.mem_singleton, not_or] at hfields
  obtain ⟨hne_u, hne_e, hne_f, hne_l, hne_blank, -⟩ := hfields
  refine ⟨?_, by simp, rfl, rfl, ?_, ?_, fun c => rfl⟩
  · have hcc : (inp.password ≠ inp.password_confirm) = False := by
      simp [hconf]
    simp [register, hu, he, hpol, hcc]
  · simp only [persistedStrings, create_user, List.mem_cons,
      List.not_mem_nil, or_false, not_or]
    exact ⟨hne_u, hne_e, fun h => hhash h.symm, hne_f, hne_l, hne_blank,
      hne_blank⟩
  · rw [← hconf]
    simp only [persistedStrings, create_user, List.mem_cons,
      List.not_mem_nil, or_false, not_or]
    exact ⟨hne_u, hne_e, fun h => hhash h.symm, hne_f, hne_l, hne_blank,
      hne_blank⟩

/-- Witness for C3: a concrete valid registration against the empty store
creates the single expected record without persisting the plaintext. -/
theorem C3_register_success_witness :
    register exHash (fun _ => none) [] exInp 7 20 =
      (.ok (create_user exHash exInp 7 20), [create_user exHash exInp 7 20]) ∧
    "Str0ngPW" ∉ persistedStrings (create_user exHash exInp 7 20) :=
  ⟨(C3_register_success exHash (fun _ => none) [] exInp 7 20 rfl rfl rfl rfl
      (by decide) (by decide)).1,
    (C3_register_success exHash (fun _ => none) [] exInp 7 20 rfl rfl rfl rfl
      (by decide) (by decide)).2.2.2.2.1⟩

/-- C4: when the username or email is already taken, the strength policy
rejects the password, or the confirmation does not match, registration fails
with a field-scoped validation error and the store is unchanged. -/
theorem C4_register_failure_no_write (hashFn : String → String)
    (policy : String → Option String) (store : Store)
    (inp : RegistrationInput) (freshId now : Nat)
    (hfail : store.any (fun u => u.username == inp.username) = true ∨
             store.any (fun u => u.email == inp.email) = true ∨
             (∃ r, policy inp.password = some r) ∨
             inp.password ≠ inp.password_confirm) :
    isFieldError (register hashFn policy store inp freshId now).1 = true ∧
    (register hashFn policy store inp freshId now).2 = store := by
  by_cases h1 : store.any (fun u => u.username == inp.username) = true
  · constructor <;> simp [register, h1, isFieldError, errField]
  · by_cases h2 : store.any (fun u => u.email == inp.email) = true
    · constructor <;> simp [register, h1, h2, isFieldError, errField]
    · cases hp : policy inp.password with
      | some r =>
        constructor <;> simp [register, h1, h2, hp, isFieldError, errField]
      | none =>
        have hmis : inp.password ≠ inp.password_confirm := by
          rcases hfail with h | h | ⟨r, h⟩ | h
          · exact absurd h h1
          · exact absurd h h2
          · rw [hp] at h; exact absurd h (by simp)
          · exact h
        constructor <;>
          simp [register, h1, h2, hp, hmis, isFieldError, errField]

/-- Witness for C4: registering a username that already exists fails with a
field-scoped error and leaves the store as it was. -/
theorem C4_register_failure_no_write_witness :
    isFieldError (register exHash (fun _ => none) [aliceUser]
      { exInp with username := "alice" } 7 20).1 = true ∧
    (register exHash (fun _ => none) [aliceUser]
      { exInp with username := "alice" } 7 20).2 = [aliceUser] :=
  C4_register_failure_no_write exHash (fun _ => none) [aliceUser]
    { exInp with username := "alice" } 7 20 (Or.inl (by decide))

/-- C5: a change-password request whose old password does not verify against
the current hash fails with the old-password error — classified as an
authentication error by the spec's taxonomy, unlike every field-input
validation error — and the store (hence the stored hash) is unchanged. -/
theorem C5_change_password_wrong_old (hashFn : String → String)
    (policy : String → Option String) (store : Store) (user : User)
    (old_password new_password new_password_confirm : String)
    (hwrong : hashFn old_password ≠ user.password) :
    changePassword hashFn policy store user old_password new_password
        new_password_confirm = (.error .oldPasswordIncorrect, store) ∧
    specIsAuthenticationError .oldPasswordIncorrect = true := by
  constructor
  · simp [changePassword, changePasswordValidate, hwrong]
  · rfl

/-- Witness for C5: a wrong old password against a concrete one-account
store fails with the authentication-classified error and leaves the store
unchanged. -/
theorem C5_change_password_wrong_old_witness :
    changePassword exHash (fun _ => none) [aliceUser] aliceUser "bad"
        "NewStr0ng" "NewStr0ng" = (.error .oldPasswordIncorrect, [aliceUser]) ∧
    specIsAuthenticationError .oldPasswordIncorrect = true :=
  C5_change_password_wrong_old exHash (fun _ => none) [aliceUser] aliceUser
    "bad" "NewStr0ng" "NewStr0ng" (by decide)

/-- C6: the profile update writes exactly the supplied fields among
first_name, last_name, avatar, and bio; every unsupplied field keeps its
prior value, and username and email are never mutated. -/
theorem C6_update_profile_frame (inst : User) (d : UpdatePayload) (now : Nat) :
    (∀ v, d.first_name = some v → (userUpdate inst d now).first_name = v) ∧
    (d.first_name = none →
      (userUpdate inst d now).first_name = inst.first_name) ∧
    (∀ v, d.last_name = some v → (userUpdate inst d now).last_name = v) ∧
    (d.last_name = none →
      (userUpdate inst d now).last_name = inst.last_name) ∧
    (∀ v, d.avatar = some v → (userUpdate inst d now).avatar = v) ∧
    (d.avatar = none → (userUpdate inst d now).avatar = inst.avatar) ∧
    (∀ v, d.bio = some v → (userUpdate inst d now).bio = v) ∧
    (d.bio = none → (userUpdate inst d now).bio = inst.bio) ∧
    (userUpdate inst d now).username = inst.username ∧
    (userUpdate inst d now).email = inst.email := by
  obtain ⟨f, l, a, b⟩ := d
  cases f <;> cases l <;> cases a <;> cases b <;> simp [userUpdate]

/-- Witness for C6: updating only the bio of a concrete account changes the
bio, keeps the first name, and does not touch the email. -/
theorem C6_update_profile_frame_witness :
    (userUpdate aliceUser
      { first_name := none, last_name := none, avatar := none,
        bio := some "hello" } 42).bio = "hello" ∧
    (userUpdate aliceUser
      { first_name := none, last_name := none, avatar := none,
        bio := some "hello" } 42).first_name = aliceUser.first_name ∧
    (userUpdate aliceUser
      { first_name := none, last_name := none, avatar := none,
        bio := some "hello" } 42).email = aliceUser.email :=
  ⟨(C6_update_profile_frame aliceUser
      { first_name := none, last_name := none, avatar := none,
        bio := some "hello" } 42).2.2.2.2.2.2.1 "hello" rfl,
   (C6_update_profile_frame aliceUser
      { first_name := none, last_name := none, avatar := none,
        bio := some "hello" } 42).2.1 rfl,
   (C6_update_profile_frame aliceUser
      { first_name := none, last_name := none, avatar := none,
        bio := some "hello" } 42).2.2.2.2.2.2.2.2.2⟩

/-- Counterexample for C7: instantiating the Token Issuer so that `"good"`
is the only structurally valid token and every `blacklist()` call raises,
logout with the structurally valid token `"good"` fails (so "structurally
invalid" is not the only failing case), and logout with the supplied but
empty token — structurally invalid — succeeds instead of failing. -/
theorem C7_logout_counterexample :
    (logout_view (fun t => t == "good") (fun _ => false) (some "good")
        []).1 = .clientError "Invalid token" ∧
    logout_view (fun t => t == "good") (fun _ => false) (some "") [] =
        (.success "Logout successful", []) := by
  constructor <;> rfl

/-- C7 as amended: logout with no token or with an empty-string token is a
successful no-op; with a non-empty structurally valid token whose
revocation succeeds it blacklists the token and succeeds; and it returns
the generic "Invalid token" error exactly when a non-empty token is
supplied that is structurally invalid or whose revocation raises. -/
theorem C7_logout_amended (tokenValid blacklistOk : String → Bool)
    (bl : List String) :
    logout_view tokenValid blacklistOk none bl =
      (.success "Logout successful", bl) ∧
    logout_view tokenValid blacklistOk (some "") bl =
      (.success "Logout successful", bl) ∧
    (∀ t, t ≠ "" → tokenValid t = true → blacklistOk t = true →
      logout_view tokenValid blacklistOk (some t) bl =
        (.success "Logout successful", bl ++ [t])) ∧
    (∀ t, t ≠ "" → (tokenValid t = false ∨ blacklistOk t = false) →
      logout_view tokenValid blacklistOk (some t) bl =
        (.clientError "Invalid token", bl)) := by
  refine ⟨rfl, rfl, ?_, ?_⟩
  · intro t ht hv hb
    simp [logout_view, ht, hv, hb]
  · intro t ht hfail
    rcases hfail with hv | hb
    · simp [logout_view, ht, hv]
    · by_cases hv2 : tokenValid t = false
      · simp [logout_view, ht, hv2]
      · simp [logout_view, ht, hv2, hb]

/-- Witness for C7's amended statement: a successful revocation of a valid
token appends it to the blacklist. -/
theorem C7_logout_amended_witness :
    logout_view (fun _ => true) (fun _ => true) (some "tok") [] =
      (.success "Logout successful", ["tok"]) :=
  (C7_logout_amended (fun _ => true) (fun _ => true) []).2.2.1 "tok"
    (by decide) rfl rfl

/-- Counterexample for C8: with every token structurally valid but the
revocation step failing for a non-structural reason (e.g. the blacklist
store is unavailable), logout answers with the 400 "Invalid token" client
error — not with a propagated 5xx. -/
theorem C8_logout_counterexample :
    logout_view (fun _ => true) (fun _ => false) (some "tok") [] =
      (.clientError "Invalid token", []) ∧
    (logout_view (fun _ => true) (fun _ => false) (some "tok") []).1 ≠
      LogoutResult.serverError := by
  constructor <;> decide

/-- C8 as amended: in the logout flow, a revocation failure for any reason
other than a malformed token (infrastructure failure included) is caught by
the view's catch-all handler and converted into the same generic 400
"Invalid token" client error; it is never propagated as a 5xx. -/
theorem C8_logout_infra_amended (tokenValid blacklistOk : String → Bool)
    (t : String) (bl : List String) (ht : t ≠ "")
    (hvalid : tokenValid t = true) (hfail : blacklistOk t = false) :
    logout_view tokenValid blacklistOk (some t) bl =
      (.clientError "Invalid token", bl) ∧
    (logout_view tokenValid blacklistOk (some t) bl).1 ≠
      LogoutResult.serverError := by
  have h : logout_view tokenValid blacklistOk (some t) bl =
      (.clientError "Invalid token", bl) := by
    simp [logout_view, ht, hvalid, hfail]
  exact ⟨h, by rw [h]; simp⟩

/-- Witness for C8's amended statement at a concrete issuer and token. -/
theorem C8_logout_infra_amended_witness :
    logout_view (fun _ => true) (fun t => t ≠ "down") (some "down") [] =
      (.clientError "Invalid token", []) :=
  (C8_logout_infra_amended (fun _ => true) (fun t => t ≠ "down") "down" []
    (by decide) rfl (by decide)).1

/-- C9: the profile's posts/comments counts equal the sizes of the related
collections when they are available and are zero when a collection is
unavailable. -/
theorem C9_profile_counts (u : User) :
    (∀ l, u.posts = some l → get_posts_count u = l.length) ∧
    (u.posts = none → get_posts_count u = 0) ∧
    (∀ l, u.comments = some l → get_comments_count u = l.length) ∧
    (u.comments = none → get_comments_count u = 0) := by
  refine ⟨?_, ?_, ?_, ?_⟩
  · intro l h; simp [get_posts_count, h]
  · intro h; simp [get_posts_count, h]
  · intro l h; simp [get_comments_count, h]
  · intro h; simp [get_comments_count, h]

/-- Witness for C9: a user with an unavailable posts collection and two
comments has counts 0 and 2. -/
theorem C9_profile_counts_witness :
    get_posts_count carolUser = 0 ∧ get_comments_count carolUser = 2 :=
  ⟨(C9_profile_counts carolUser).2.1 rfl,
   (C9_profile_counts carolUser).2.2.1 [7, 8] rfl⟩

theorem stripChars_space_cons (l : List Char) :
    stripChars (' ' :: l) = stripChars l := by
  simp [stripChars, List.dropWhile_cons, pyIsSpace]

theorem dropWhile_space_concat (l : List Char) :
    List.dropWhile pyIsSpace (l ++ [' ']) =
      if List.dropWhile pyIsSpace l = [] then []
      else List.dropWhile pyIsSpace l ++ [' '] := by
  induction l with
  | nil => simp [List.dropWhile, pyIsSpace]
  | cons a l ih =>
    by_cases ha : pyIsSpace a = true
    · simpa [List.dropWhile_cons, ha] using ih
    · simp [List.dropWhile_cons, ha]

theorem stripChars_space_concat (l : List Char) :
    stripChars (l ++ [' ']) = stripChars l := by
  unfold stripChars
  rw [dropWhile_space_concat]
  by_cases h : List.dropWhile pyIsSpace l = []
  · simp [h]
  · rw [if_neg h, List.reverse_append]
    simp [List.dropWhile_cons, pyIsSpace]

theorem pyStrip_space_left (s : String) : pyStrip ("" ++ " " ++ s) = pyStrip s := by
  have h : ("" ++ " " ++ s).data = ' ' :: s.data := by
    simp [String.data_append]
  unfold pyStrip
  rw [h, stripChars_space_cons]

theorem pyStrip_space_right (s : String) :
    pyStrip (s ++ " " ++ "") = pyStrip s := by
  have h : (s ++ " " ++ "").data = s.data ++ [' '] := by
    simp [String.data_append]
  unfold pyStrip
  rw [h, stripChars_space_concat]

/-- C10: `full_name` is the concatenation of first name, one space, and
last name, with leading and trailing whitespace stripped; when both names
are empty it is the empty string, and when exactly one is empty it is the
other name stripped of surrounding whitespace (so with no surrounding
spaces). -/
theorem C10_full_name_spec (u : User) :
    full_name u = pyStrip (u.first_name ++ " " ++ u.last_name) ∧
    (u.first_name = "" → u.last_name = "" → full_name u = "") ∧
    (u.first_name = "" → full_name u = pyStrip u.last_name) ∧
    (u.last_name = "" → full_name u = pyStrip u.first_name) := by
  refine ⟨rfl, ?_, ?_, ?_⟩
  · intro h1 h2
    unfold full_name
    rw [h1, h2]
    rfl
  · intro h1
    unfold full_name
    rw [h1]
    exact pyStrip_space_left _
  · intro h2
    unfold full_name
    rw [h2]
    exact pyStrip_space_right _

/-- Witness for C10: for a concrete account with an empty first name the
full name is the last name, with no surrounding spaces. -/
theorem C10_full_name_spec_witness : full_name carolUser = "Lovelace" := by
  have h := (C10_full_name_spec carolUser).2.2.1 rfl
  rw [h]
  decide

end NewsApp
